import Mathlib

/-!
Verification of the py_bench benchmark registry
(`py_bench/bench_registry/decorators.py` and the `BenchRegistry` store it
mutates).

Python function objects are modelled as opaque identities (`FnId`), since the
registry never inspects a function's body: it only stores references and keys
metadata by object identity.  The process-wide `BenchRegistry` class state is
modelled as an explicit `RegState` value threaded through the operations.
The two `dict`-backed associations are modelled as lookup functions
`FnId → Option _`; a `dict` assignment becomes a pointwise overwrite and a
`dict` lookup a function application, which matches the observable lookup
semantics of Python dictionaries.
-/

/-- A Python function object, reduced to its identity (an opaque, decidably
comparable handle).  The registry keys everything by object identity. -/
abbrev FnId := Nat

/-- A Python value passed as a positional argument to the `param` marker. -/
abbrev PyVal := Int

/-- The class-level state of `BenchRegistry`:
`bench_marked_functions` is the ordered list of functions passed to the
`benchmark` marker; `param_map` maps a function identity to the argument
tuple bound by `param`; `setup_map` maps a function identity to its setup
binding from `case_setup`. -/
structure RegState where
  bench_marked_functions : List FnId
  param_map : FnId → Option (List PyVal)
  setup_map : FnId → Option FnId

/-- The registry state before any marker has run: empty list, both maps
empty (every lookup absent). -/
def initState : RegState :=
  { bench_marked_functions := []
    param_map := fun _ => none
    setup_map := fun _ => none }

/-- Modelled from the spec: `BenchRegistry.save_param_marked_function`
(the `bench_regisrty` module is not part of the given sources; only its
caller `decorators.param` is).  Per the spec it "associates the ordered tuple
`args` with `fn`'s identity in the parameter mapping, overwriting any prior
association for that identity" and returns the function itself, preserving
identity. -/
def save_param_marked_function (s : RegState) (f : FnId) (args : List PyVal) :
    RegState × FnId :=
  ({ s with param_map := fun g => if g = f then some args else s.param_map g }, f)

/-- Modelled from the spec: `BenchRegistry.save_case_setup_function`
(the `bench_regisrty` module is not part of the given sources; only its
caller `decorators.case_setup` is).  Per the spec it associates `fn` as the
setup routine under its own identity, replacing any prior binding, and
returns `fn` itself. -/
def save_case_setup_function (s : RegState) (f : FnId) : RegState × FnId :=
  ({ s with setup_map := fun g => if g = f then some f else s.setup_map g }, f)

/-- `decorators.benchmark`: appends `f` to
`BenchRegistry.bench_marked_functions` and returns `f`. -/
def benchmark (s : RegState) (f : FnId) : RegState × FnId :=
  ({ s with bench_marked_functions := s.bench_marked_functions ++ [f] }, f)

/-- `decorators.param(*args)`: its inner `dumb_wrapper` applied to `f`
returns `BenchRegistry.save_param_marked_function(f, args)`. -/
def param (args : List PyVal) (s : RegState) (f : FnId) : RegState × FnId :=
  save_param_marked_function s f args

/-- `decorators.case_setup`: returns
`BenchRegistry.save_case_setup_function(f)`. -/
def case_setup (s : RegState) (f : FnId) : RegState × FnId :=
  save_case_setup_function s f

/-- Read accessor `benchmarks()` / `BenchRegistry.bench_marked_functions`:
the ordered registered sequence, unfiltered. -/
def benchmarks (s : RegState) : List FnId :=
  s.bench_marked_functions

/-- Read accessor `parameters_for(fn)`: lookup of `fn`'s identity in the
parameter mapping; `none` models "absent". -/
def parameters_for (s : RegState) (f : FnId) : Option (List PyVal) :=
  s.param_map f

/-- Read accessor `setup_for(fn)`: lookup of `fn`'s identity in the setup
mapping; `none` models "absent". -/
def setup_for (s : RegState) (f : FnId) : Option FnId :=
  s.setup_map f

/-- One marker application, as recorded in a registration trace. -/
inductive Op where
  | benchOp (f : FnId)
  | paramOp (f : FnId) (args : List PyVal)
  | setupOp (f : FnId)
deriving DecidableEq

/-- Apply one recorded marker application to the registry state. -/
def applyOp (s : RegState) : Op → RegState
  | Op.benchOp f => (benchmark s f).1
  | Op.paramOp f args => (param args s f).1
  | Op.setupOp f => (case_setup s f).1

/-- Run a whole registration trace, left to right, from a starting state. -/
def runOps (ops : List Op) (s : RegState) : RegState :=
  ops.foldl applyOp s

/-- Apply one marker in the Python runtime, where an operation could in
principle raise an exception: the result is either a raised error or the new
state together with the marker's return value.  All three marker bodies are
a list append, a dict store, or a plain return, none of which raises, so
every branch is `Except.ok`. -/
def applyMarkerExc (s : RegState) : Op → Except String (RegState × FnId)
  | Op.benchOp f => Except.ok (benchmark s f)
  | Op.paramOp f args => Except.ok (param args s f)
  | Op.setupOp f => Except.ok (case_setup s f)

/-! ## Helper lemmas about registration traces -/

lemma benchmarks_runOps_map_benchOp (fs : List FnId) (s : RegState) :
    benchmarks (runOps (fs.map Op.benchOp) s) = benchmarks s ++ fs := by
  induction fs generalizing s with
  | nil => simp [runOps, benchmarks]
  | cons f rest ih =>
      simp only [List.map_cons, runOps, List.foldl_cons] at *
      rw [ih]
      simp [applyOp, benchmark, benchmarks]

lemma setup_for_runOps_of_not_mem (ops : List Op) (s : RegState) (f : FnId)
    (hno : Op.setupOp f ∉ ops) (h : setup_for s f = none) :
    setup_for (runOps ops s) f = none := by
  induction ops generalizing s with
  | nil => exact h
  | cons op rest ih =>
      simp only [List.mem_cons, not_or] at hno
      simp only [runOps, List.foldl_cons]
      refine ih _ hno.2 ?_
      cases op with
      | benchOp g => exact h
      | paramOp g a => exact h
      | setupOp g =>
          simp only [applyOp, case_setup, save_case_setup_function, setup_for] at *
          have hgf : f ≠ g := fun he => hno.1 (by rw [he])
          simp [hgf, h]

lemma parameters_for_runOps_of_not_mem (ops : List Op) (s : RegState) (f : FnId)
    (hno : ∀ a, Op.paramOp f a ∉ ops) (h : parameters_for s f = none) :
    parameters_for (runOps ops s) f = none := by
  induction ops generalizing s with
  | nil => exact h
  | cons op rest ih =>
      have hno' : ∀ a, Op.paramOp f a ∉ rest := fun a he =>
        hno a (List.mem_cons_of_mem _ he)
      simp only [runOps, List.foldl_cons]
      refine ih _ hno' ?_
      cases op with
      | benchOp g => exact h
      | setupOp g => exact h
      | paramOp g a =>
          simp only [applyOp, param, save_param_marked_function, parameters_for] at *
          have hgf : f ≠ g := fun he => hno a (by rw [he]; exact List.mem_cons_self _ _)
          simp [hgf, h]

lemma not_mem_benchmarks_runOps (ops : List Op) (s : RegState) (f : FnId)
    (hno : Op.benchOp f ∉ ops) (h : f ∉ benchmarks s) :
    f ∉ benchmarks (runOps ops s) := by
  induction ops generalizing s with
  | nil => exact h
  | cons op rest ih =>
      simp only [List.mem_cons, not_or] at hno
      simp only [runOps, List.foldl_cons]
      refine ih _ hno.2 ?_
      cases op with
      | paramOp g a => exact h
      | setupOp g => exact h
      | benchOp g =>
          simp only [applyOp, benchmark, benchmarks] at *
          have hgf : f ≠ g := fun he => hno.1 (by rw [he])
          simp [h, hgf]

/-! ## Claim theorems -/

/-- C1: For every sequence of distinct functions to which the `benchmark`
marker is applied, `benchmarks()` lists exactly those functions in the exact
order the marker was applied, with no filtering. -/
theorem benchmark_registration_preserves_order (fs : List FnId)
    (hdist : fs.Nodup) :
    benchmarks (runOps (fs.map Op.benchOp) initState) = fs := by
  rw [benchmarks_runOps_map_benchOp]
  simp [initState, benchmarks]

/-- Witness for C1 at the concrete distinct sequence `[0, 1, 2]`. -/
theorem benchmark_registration_preserves_order_witness :
    ([0, 1, 2] : List FnId).Nodup ∧
      benchmarks (runOps ([0, 1, 2].map Op.benchOp) initState) = [0, 1, 2] :=
  ⟨by decide, benchmark_registration_preserves_order [0, 1, 2] (by decide)⟩

/-- C2: After `param(args)` is applied to `f`, the parameter lookup for `f`
yields exactly `args`; applying `param(a1)` then `param(a2)` leaves the
lookup equal to `a2` (last write wins). -/
theorem param_last_write_wins (s : RegState) (f : FnId)
    (a a1 a2 : List PyVal) :
    parameters_for ((param a s f).1) f = some a ∧
      parameters_for ((param a2 ((param a1 s f).1) f).1) f = some a2 := by
  constructor <;> simp [param, save_param_marked_function, parameters_for]

/-- C3: Applying `benchmark`, `param(1, 2)` and `case_setup` to one function
`f` yields the same final registry state in all six stacking orders, and that
state has `f` in the benchmark sequence, parameter lookup `(1, 2)` for `f`,
and a setup binding present for `f`. -/
theorem marker_stacking_order_irrelevant (s : RegState) (f : FnId) :
    ((case_setup ((param [1, 2] ((benchmark s f).1) f).1) f).1 =
        (param [1, 2] ((case_setup ((benchmark s f).1) f).1) f).1 ∧
      (case_setup ((param [1, 2] ((benchmark s f).1) f).1) f).1 =
        (case_setup ((benchmark ((param [1, 2] s f).1) f).1) f).1 ∧
      (case_setup ((param [1, 2] ((benchmark s f).1) f).1) f).1 =
        (benchmark ((case_setup ((param [1, 2] s f).1) f).1) f).1 ∧
      (case_setup ((param [1, 2] ((benchmark s f).1) f).1) f).1 =
        (param [1, 2] ((benchmark ((case_setup s f).1) f).1) f).1 ∧
      (case_setup ((param [1, 2] ((benchmark s f).1) f).1) f).1 =
        (benchmark ((param [1, 2] ((case_setup s f).1) f).1) f).1) ∧
      f ∈ benchmarks ((case_setup ((param [1, 2] ((benchmark s f).1) f).1) f).1) ∧
      parameters_for ((case_setup ((param [1, 2] ((benchmark s f).1) f).1) f).1) f =
        some [1, 2] ∧
      (setup_for ((case_setup ((param [1, 2] ((benchmark s f).1) f).1) f).1) f).isSome := by
  refine ⟨⟨rfl, rfl, rfl, rfl, rfl⟩, ?_, ?_, ?_⟩ <;>
    simp [benchmark, param, case_setup, save_param_marked_function,
      save_case_setup_function, benchmarks, parameters_for, setup_for]

/-- C4: The `benchmark` marker returns `f` itself, with the same identity. -/
theorem benchmark_returns_same_function (s : RegState) (f : FnId) :
    (benchmark s f).2 = f :=
  rfl

/-- C5: Applying `benchmark` twice to the same function makes it appear twice
in the benchmark sequence: no deduplication is performed. -/
theorem benchmark_twice_appears_twice (s : RegState) (f : FnId) :
    benchmarks ((benchmark ((benchmark initState f).1) f).1) = [f, f] ∧
      List.count f (benchmarks ((benchmark ((benchmark s f).1) f).1)) =
        List.count f (benchmarks s) + 2 := by
  constructor <;> simp [benchmark, benchmarks, initState]

/-- C6: Every registry operation reachable through the three markers is total
and never raises: each application yields an `ok` result for every state,
function handle and argument tuple. -/
theorem markers_total_never_throw (s : RegState) (op : Op) :
    ∃ r, applyMarkerExc s op = Except.ok r := by
  cases op <;> exact ⟨_, rfl⟩

/-- C7: `param` mutates only the parameter mapping — the benchmark sequence
and the setup mapping are unchanged — and a function given a parameter set in
a trace but never marked with `benchmark` does not appear in the benchmark
sequence. -/
theorem param_mutates_only_param_map (s : RegState) (f : FnId)
    (a : List PyVal) (ops : List Op) (hp : Op.paramOp f a ∈ ops)
    (hb : Op.benchOp f ∉ ops) :
    benchmarks ((param a s f).1) = benchmarks s ∧
      (∀ g, setup_for ((param a s f).1) g = setup_for s g) ∧
      f ∉ benchmarks (runOps ops initState) := by
  refine ⟨rfl, fun g => rfl, ?_⟩
  exact not_mem_benchmarks_runOps ops initState f hb (by simp [initState, benchmarks])

/-- Witness for C7: the trace `[param 0 (1, 2)]` mentions `param` on function
`0` and never `benchmark` on it, and `0` is absent from the final benchmark
sequence. -/
theorem param_mutates_only_param_map_witness :
    (Op.paramOp 0 [1, 2] ∈ [Op.paramOp 0 [1, 2]] ∧
        Op.benchOp 0 ∉ [Op.paramOp 0 [1, 2]]) ∧
      (0 : FnId) ∉ benchmarks (runOps [Op.paramOp 0 [1, 2]] initState) :=
  ⟨⟨by decide, by decide⟩,
    (param_mutates_only_param_map initState 0 [1, 2] [Op.paramOp 0 [1, 2]]
      (by decide) (by decide)).2.2⟩

/-- C8: After `case_setup` is applied to `f`, the setup lookup for `f` yields
`f` itself; in any trace that never passes `f` to `case_setup` (whatever else
it does, `param f` included) the setup lookup for `f` is absent, and,
independently, in any trace that never passes `f` to `param` (it may
`case_setup f`) the parameter lookup for `f` is absent. -/
theorem case_setup_binds_self (s : RegState) (f : FnId) (ops1 ops2 : List Op)
    (hs : Op.setupOp f ∉ ops1) (hp : ∀ a, Op.paramOp f a ∉ ops2) :
    setup_for ((case_setup s f).1) f = some f ∧
      setup_for (runOps ops1 initState) f = none ∧
      parameters_for (runOps ops2 initState) f = none := by
  refine ⟨?_, ?_, ?_⟩
  · simp [case_setup, save_case_setup_function, setup_for]
  · exact setup_for_runOps_of_not_mem ops1 initState f hs rfl
  · exact parameters_for_runOps_of_not_mem ops2 initState f hp rfl

/-- Witness for C8 with the two implications exercised on different traces:
`[param 0 (1), benchmark 1]` passes `0` to `param` but never to `case_setup`,
so its setup lookup for `0` is absent; `[case_setup 0, benchmark 1]` passes
`0` to `case_setup` but never to `param`, so its parameter lookup for `0` is
absent; and the binding right after `case_setup 0` is `0` itself. -/
theorem case_setup_binds_self_witness :
    setup_for ((case_setup initState 0).1) 0 = some 0 ∧
      setup_for (runOps [Op.paramOp 0 [1], Op.benchOp 1] initState) 0 = none ∧
      parameters_for (runOps [Op.setupOp 0, Op.benchOp 1] initState) 0 = none :=
  case_setup_binds_self initState 0 [Op.paramOp 0 [1], Op.benchOp 1]
    [Op.setupOp 0, Op.benchOp 1] (by decide) (fun a => by simp)

/-- C9: `param()` with zero arguments binds the empty tuple: the parameter
lookup afterwards is present and equal to `()`, distinguishable from the
absent lookup of a function never passed to `param`. -/
theorem param_empty_binds_empty_tuple (s : RegState) (f : FnId) :
    parameters_for ((param [] s f).1) f = some [] ∧
      (parameters_for ((param [] s f).1) f).isSome = true ∧
      parameters_for initState f = none := by
  refine ⟨?_, ?_, rfl⟩ <;>
    simp [param, save_param_marked_function, parameters_for]

/-- C10: `benchmark` appends exactly one entry to the benchmark sequence and
changes nothing else: both metadata lookups are unchanged at every function
identity. -/
theorem benchmark_appends_one_entry_only (s : RegState) (f : FnId) :
    benchmarks ((benchmark s f).1) = benchmarks s ++ [f] ∧
      (∀ g, parameters_for ((benchmark s f).1) g = parameters_for s g) ∧
      (∀ g, setup_for ((benchmark s f).1) g = setup_for s g) :=
  ⟨rfl, fun g => rfl, fun g => rfl⟩
